import Mathlib

/-!
Verification of the joint model of the compas robot-model core
(src/compas/robots/model/joint.py): the Axis / Limit / Mimic / Joint data
model and the per-kind transformation computation.

Scalars are modelled as real numbers.  The geometry library
(compas.geometry: Vector, Frame, Rotation, Translation, Transformation) is
not part of the verified sources; the few operations consumed are modelled
from the spec, and the produced rigid transforms are represented by a free
inductive type whose constructors record exactly the data the source passes
to the geometry constructors (axis, angle, pivot point, translation vector).
-/

noncomputable section

namespace Compas

/-- Three-component vector (compas.geometry.Vector). Modelled from the spec:
the geometry library is a supplied collaborator; only components, length,
normalization and scalar multiplication are consumed. -/
structure Vector where
  x : ℝ
  y : ℝ
  z : ℝ

/-- Euclidean length of a vector. Modelled from the spec (supplied geometry
library). -/
def Vector.length (v : Vector) : ℝ :=
  Real.sqrt (v.x ^ 2 + v.y ^ 2 + v.z ^ 2)

/-- Scalar multiplication of a vector, as in Vector.__mul__. Modelled from
the spec (supplied geometry library). -/
def Vector.scaled (v : Vector) (factor : ℝ) : Vector :=
  ⟨v.x * factor, v.y * factor, v.z * factor⟩

/-- Vector.unitize: divide each component by the length. Modelled from the
spec: a non-zero vector is normalized to unit length. -/
def Vector.unitized (v : Vector) : Vector :=
  ⟨v.x / v.length, v.y / v.length, v.z / v.length⟩

/-- Coordinate frame (compas.geometry.Frame): a reference point and two
orientation axes. Modelled from the spec, which consumes only the reference
point and the ability to rescale the translation component. -/
structure Frame where
  point : Vector
  xaxis : Vector
  yaxis : Vector

/-- Frame.scale. Modelled from the spec: scaling a frame rescales its
translation component (the reference point) by the factor; the unit
orientation axes are unchanged. -/
def Frame.scale (f : Frame) (factor : ℝ) : Frame :=
  { f with point := f.point.scaled factor }

/-- The default origin frame Frame.from_euler_angles([0., 0., 0.]): the
identity frame at the world origin. Modelled from the spec (supplied
geometry library). -/
def defaultFrame : Frame :=
  ⟨⟨0, 0, 0⟩, ⟨1, 0, 0⟩, ⟨0, 1, 0⟩⟩

/-- Rigid transforms produced by the joint model.  The source builds them
through three geometry-library constructors, modelled here as free
constructors recording the exact arguments passed:
Transformation() becomes identity, Rotation.from_axis_and_angle(axis, angle,
point) becomes rotation, Translation.from_vector(v) becomes translation. -/
inductive Transformation where
  | identity : Transformation
  | rotation (axis : Vector) (angle : ℝ) (point : Vector) : Transformation
  | translation (v : Vector) : Transformation

/-- Errors raised by the joint model: ValueError and NotImplementedError as
in the source, plus AttributeError for calling a method on None. -/
inductive Error where
  | valueError (msg : String) : Error
  | notImplementedError : Error
  | attributeError (msg : String) : Error

/-- Joint limit properties (class Limit): effort, velocity, lower, upper,
in the constructor order of Limit.__init__. The free-form attr kwargs are
omitted. -/
structure Limit where
  effort : ℝ
  velocity : ℝ
  lower : ℝ
  upper : ℝ

/-- Limit.scale: multiply the lower and upper limits by the factor
(self.lower *= factor; self.upper *= factor). -/
def Limit.scale (l : Limit) (factor : ℝ) : Limit :=
  { l with lower := l.lower * factor, upper := l.upper * factor }

/-- Description of joint mimic (class Mimic): the mimicked joint name, a
multiplier and an offset. -/
structure Mimic where
  joint : String
  multiplier : ℝ
  offset : ℝ

/-- Mimic.calculate_position: multiplier * mimicked_joint_position + offset. -/
def Mimic.calculate_position (m : Mimic) (mimicked_joint_position : ℝ) : ℝ :=
  m.multiplier * mimicked_joint_position + m.offset

/-- Reference positions of the joint (class Calibration). -/
structure Calibration where
  rising : ℝ
  falling : ℝ
  reference_position : ℝ

/-- Physical properties of the joint (class Dynamics); attr kwargs omitted. -/
structure Dynamics where
  damping : ℝ
  friction : ℝ

/-- Safety controller properties (class SafetyController). -/
structure SafetyController where
  k_velocity : ℝ
  k_position : ℝ
  soft_lower_limit : ℝ
  soft_upper_limit : ℝ

/-- Representation of an axis (class Axis): three components. The free-form
attr kwargs are omitted. -/
structure Axis where
  x : ℝ
  y : ℝ
  z : ℝ

/-- Axis.__init__ on the already-parsed float triple (the string splitting
done by _parse_floats lives outside the verified sources): if the vector has
non-zero length it is unitized, otherwise it is stored as given. -/
def Axis.init (v : Vector) : Axis :=
  let u := if v.length = 0 then v else v.unitized
  ⟨u.x, u.y, u.z⟩

/-- Vector of the axis (Axis.vector property). -/
def Axis.vector (a : Axis) : Vector :=
  ⟨a.x, a.y, a.z⟩

/-- Rounding to six decimal places. Modelled from Python string formatting:
the %f conversion used by Axis.copy renders a float with exactly six
digits after the decimal point (rounding ties are not exercised here). -/
def fmt6 (r : ℝ) : ℝ :=
  (round (r * 10 ^ 6) : ℝ) / 10 ^ 6

/-- Axis.copy: re-build the axis from the string "%f %f %f" % (x, y, z),
i.e. the constructor (with its normalization) applied to the components
rounded to six decimal places. -/
def Axis.copy (a : Axis) : Axis :=
  Axis.init ⟨fmt6 a.x, fmt6 a.y, fmt6 a.z⟩

/-- The joint type constants REVOLUTE, CONTINUOUS, PRISMATIC, FIXED,
FLOATING, PLANAR of class Joint, as a closed enumeration. -/
inductive JointType where
  | revolute : JointType
  | continuous : JointType
  | prismatic : JointType
  | fixed : JointType
  | floating : JointType
  | planar : JointType
deriving DecidableEq

/-- The joint state (class Joint).  current_origin / current_axis are the
world-relative copies initialized by __init__; memoized models the presence
of the _calculate_transformation attribute cached by the dispatcher (the
cached target itself is determined by the immutable type field).  The
free-form attr kwargs and the child_link back-pointer are omitted. -/
structure Joint where
  name : String
  type : JointType
  parent : String
  child : String
  origin : Frame
  axis : Axis
  calibration : Option Calibration
  dynamics : Option Dynamics
  limit : Option Limit
  safety_controller : Option SafetyController
  mimic : Option Mimic
  position : ℝ
  current_origin : Frame
  current_axis : Axis
  memoized : Bool

/-- Joint.__init__ with the type already resolved to the enumeration
(the string-to-index lookup and the unsupported-type ValueError concern
only the textual interface): optional origin and axis default to the
identity frame and to Axis() (i.e. the parsed triple 1 0 0), position
starts at 0, current_origin is a copy of origin and current_axis is
axis.copy() (the %f round-trip copy). -/
def mkJoint (name : String) (type : JointType) (parent child : String)
    (origin : Option Frame) (axis : Option Axis)
    (calibration : Option Calibration) (dynamics : Option Dynamics)
    (limit : Option Limit) (safety_controller : Option SafetyController)
    (mimic : Option Mimic) : Joint :=
  let origin0 := origin.getD defaultFrame
  let axis0 := axis.getD (Axis.init ⟨1, 0, 0⟩)
  { name := name
    type := type
    parent := parent
    child := child
    origin := origin0
    axis := axis0
    calibration := calibration
    dynamics := dynamics
    limit := limit
    safety_controller := safety_controller
    mimic := mimic
    position := 0
    current_origin := origin0
    current_axis := axis0.copy
    memoized := false }

/-- Joint.is_configurable: true unless the joint is fixed or mimics
another joint. -/
def Joint.is_configurable (j : Joint) : Bool :=
  !(j.type == JointType.fixed) && j.mimic.isNone

/-- Joint.is_scalable: true exactly for planar and prismatic joints. -/
def Joint.is_scalable (j : Joint) : Bool :=
  j.type == JointType.planar || j.type == JointType.prismatic

/-- Joint.scale: scale current_origin by the factor, then, if the joint is
scalable, scale the limit.  A scalable joint whose limit is None hits
None.scale(factor), which raises AttributeError in Python, modelled as an
error result. -/
def Joint.scale (j : Joint) (factor : ℝ) : Except Error Joint :=
  let j1 := { j with current_origin := j.current_origin.scale factor }
  if j1.is_scalable then
    match j1.limit with
    | none => Except.error (Error.attributeError "NoneType object has no attribute scale")
    | some l => Except.ok { j1 with limit := some (l.scale factor) }
  else
    Except.ok j1

/-- Joint.calculate_continuous_transformation: rotation about the current
axis through the position, pivoting at the current origin point. -/
def Joint.calculate_continuous_transformation (j : Joint) (position : ℝ) :
    Transformation :=
  Transformation.rotation j.current_axis.vector position j.current_origin.point

/-- Joint.calculate_revolute_transformation: requires a limit (ValueError
otherwise), clamps the position into [limit.lower, limit.upper] and builds
the continuous rotation at the clamped position. -/
def Joint.calculate_revolute_transformation (j : Joint) (position : ℝ) :
    Except Error Transformation :=
  match j.limit with
  | none => Except.error (Error.valueError "Revolute joints are required to define a limit")
  | some l =>
      Except.ok (j.calculate_continuous_transformation (max (min position l.upper) l.lower))

/-- Joint.calculate_prismatic_transformation: requires a limit (ValueError
otherwise), clamps the position into [limit.lower, limit.upper] and builds
the translation along the current axis scaled by the clamped position. -/
def Joint.calculate_prismatic_transformation (j : Joint) (position : ℝ) :
    Except Error Transformation :=
  match j.limit with
  | none => Except.error (Error.valueError "Prismatic joints are required to define a limit")
  | some l =>
      Except.ok (Transformation.translation
        (j.current_axis.vector.scaled (max (min position l.upper) l.lower)))

/-- Joint.calculate_fixed_transformation: the identity transformation. -/
def Joint.calculate_fixed_transformation (_j : Joint) (_position : ℝ) :
    Transformation :=
  Transformation.identity

/-- Joint.calculate_floating_transformation: raises NotImplementedError. -/
def Joint.calculate_floating_transformation (_j : Joint) (_position : ℝ) :
    Except Error Transformation :=
  Except.error Error.notImplementedError

/-- Joint.calculate_planar_transformation: raises NotImplementedError. -/
def Joint.calculate_planar_transformation (_j : Joint) (_position : ℝ) :
    Except Error Transformation :=
  Except.error Error.notImplementedError

/-- Joint.calculate_transformation: on first call the dispatch target for
the joint type is cached on the instance (modelled by the memoized flag;
the target is a function of the immutable type), then the per-kind
calculator is invoked.  Returns the result together with the updated joint
state. -/
def Joint.calculate_transformation (j : Joint) (position : ℝ) :
    Except Error Transformation × Joint :=
  let j1 := if j.memoized then j else { j with memoized := true }
  (match j.type with
   | JointType.revolute => j.calculate_revolute_transformation position
   | JointType.continuous => Except.ok (j.calculate_continuous_transformation position)
   | JointType.prismatic => j.calculate_prismatic_transformation position
   | JointType.fixed => Except.ok (j.calculate_fixed_transformation position)
   | JointType.floating => j.calculate_floating_transformation position
   | JointType.planar => j.calculate_planar_transformation position,
   j1)

/-- A concrete revolute joint with limit [-1, 1] about the axis (0, 0, 1),
used for the clamping scenario. -/
def demoRevolute : Joint :=
  { name := "r1"
    type := JointType.revolute
    parent := "base"
    child := "link1"
    origin := defaultFrame
    axis := ⟨0, 0, 1⟩
    calibration := none
    dynamics := none
    limit := some ⟨0, 0, -1, 1⟩
    safety_controller := none
    mimic := none
    position := 0
    current_origin := defaultFrame
    current_axis := ⟨0, 0, 1⟩
    memoized := false }

/-- The same revolute joint with the dispatch target already cached. -/
def demoRevoluteMemo : Joint :=
  { demoRevolute with name := "r1cached", memoized := true }

/-- A concrete prismatic joint with limit [0, 2] along the axis (1, 0, 0). -/
def demoPrismatic : Joint :=
  { name := "p1"
    type := JointType.prismatic
    parent := "base"
    child := "link1"
    origin := defaultFrame
    axis := ⟨1, 0, 0⟩
    calibration := none
    dynamics := none
    limit := some ⟨0, 0, 0, 2⟩
    safety_controller := none
    mimic := none
    position := 0
    current_origin := defaultFrame
    current_axis := ⟨1, 0, 0⟩
    memoized := false }

/-- A prismatic joint with no limit configured. -/
def noLimitPrismatic : Joint :=
  { demoPrismatic with name := "p2", limit := none }

/-- A fixed joint. -/
def demoFixed : Joint :=
  { demoPrismatic with name := "f1", type := JointType.fixed, limit := none }

/-- A floating joint. -/
def demoFloating : Joint :=
  { demoPrismatic with name := "fl1", type := JointType.floating, limit := none }

/-- The axis built from the parsed triple 1 2 2, whose normalized
components 1/3, 2/3, 2/3 are not representable in six decimal places. -/
def demoAxis : Axis :=
  Axis.init ⟨1, 2, 2⟩

/-- A joint constructed through Joint.__init__ with demoAxis as its static
axis; its current_axis is demoAxis.copy(). -/
def demoJoint : Joint :=
  mkJoint "j" JointType.revolute "base" "tip" none (some demoAxis)
    none none none none none

/-- The squared length under the root is the sum of squares. -/
theorem length_sq (v : Vector) :
    v.length ^ 2 = v.x ^ 2 + v.y ^ 2 + v.z ^ 2 :=
  Real.sq_sqrt (by positivity)

/-- A vector of zero length has a zero sum of squares. -/
theorem length_eq_zero_sum_sq (v : Vector) (h : v.length = 0) :
    v.x ^ 2 + v.y ^ 2 + v.z ^ 2 = 0 := by
  have := length_sq v
  rw [h] at this
  simpa using this.symm

/-- Claim C5: the Axis constructor stores a unit-length vector when the
input has non-zero length, and stores exactly the zero vector when the
input has zero length. -/
theorem C5_axis_unit (v : Vector) :
    (v.length ≠ 0 → (Axis.init v).vector.length = 1) ∧
    (v.length = 0 → Axis.init v = ⟨0, 0, 0⟩) := by
  constructor
  · intro h
    have hS : (0 : ℝ) ≤ v.x ^ 2 + v.y ^ 2 + v.z ^ 2 := by positivity
    have hS0 : v.x ^ 2 + v.y ^ 2 + v.z ^ 2 ≠ 0 := by
      intro h0
      exact h (by unfold Vector.length; rw [h0, Real.sqrt_zero])
    simp only [Axis.init, if_neg h, Axis.vector, Vector.unitized]
    unfold Vector.length
    rw [div_pow, div_pow, div_pow, div_add_div_same, div_add_div_same,
      Real.sq_sqrt hS, div_self hS0, Real.sqrt_one]
  · intro h
    have hS0 := length_eq_zero_sum_sq v h
    have hx : v.x = 0 := by
      have : v.x ^ 2 = 0 := by nlinarith [sq_nonneg v.x, sq_nonneg v.y, sq_nonneg v.z]
      exact pow_eq_zero_iff two_ne_zero |>.mp this
    have hy : v.y = 0 := by
      have : v.y ^ 2 = 0 := by nlinarith [sq_nonneg v.x, sq_nonneg v.y, sq_nonneg v.z]
      exact pow_eq_zero_iff two_ne_zero |>.mp this
    have hz : v.z = 0 := by
      have : v.z ^ 2 = 0 := by nlinarith [sq_nonneg v.x, sq_nonneg v.y, sq_nonneg v.z]
      exact pow_eq_zero_iff two_ne_zero |>.mp this
    simp only [Axis.init, if_pos h]
    rw [hx, hy, hz]

/-- Witness for C5 at the non-zero vector (3, 4, 0) and at the zero
vector. -/
theorem C5_witness :
    (Vector.length ⟨3, 4, 0⟩ ≠ 0 ∧ (Axis.init ⟨3, 4, 0⟩).vector.length = 1) ∧
    (Vector.length ⟨0, 0, 0⟩ = 0 ∧ Axis.init ⟨0, 0, 0⟩ = ⟨0, 0, 0⟩) := by
  have h1 : Vector.length ⟨3, 4, 0⟩ ≠ 0 := by
    unfold Vector.length
    rw [show ((3 : ℝ) ^ 2 + 4 ^ 2 + 0 ^ 2 : ℝ) = 5 ^ 2 by norm_num,
      Real.sqrt_sq (by norm_num : (0 : ℝ) ≤ 5)]
    norm_num
  have h2 : Vector.length ⟨0, 0, 0⟩ = 0 := by
    unfold Vector.length
    rw [show ((0 : ℝ) ^ 2 + 0 ^ 2 + 0 ^ 2 : ℝ) = 0 by norm_num, Real.sqrt_zero]
  exact ⟨⟨h1, (C5_axis_unit ⟨3, 4, 0⟩).1 h1⟩, ⟨h2, (C5_axis_unit ⟨0, 0, 0⟩).2 h2⟩⟩

/-- The length of the vector (1, 2, 2) is 3. -/
theorem length_one_two_two : Vector.length ⟨1, 2, 2⟩ = 3 := by
  unfold Vector.length
  rw [show ((1 : ℝ) ^ 2 + 2 ^ 2 + 2 ^ 2 : ℝ) = 3 ^ 2 by norm_num,
    Real.sqrt_sq (by norm_num : (0 : ℝ) ≤ 3)]

/-- The demo axis normalizes 1 2 2 to the components 1/3, 2/3, 2/3. -/
theorem demoAxis_eq : demoAxis = ⟨1 / 3, 2 / 3, 2 / 3⟩ := by
  unfold demoAxis
  simp only [Axis.init, length_one_two_two, Vector.unitized]
  norm_num

/-- Rounding 1/3 to six decimal places gives 333333/1000000. -/
theorem fmt6_one_third : fmt6 (1 / 3 : ℝ) = 333333 / 1000000 := by
  unfold fmt6
  have h : round ((1 / 3 : ℝ) * 10 ^ 6) = 333333 := by
    rw [round_eq]
    rw [show (333333 : ℤ) = ((333333 : ℤ) : ℤ) from rfl]
    apply Int.floor_eq_iff.mpr
    constructor <;> push_cast <;> norm_num
  rw [h]
  norm_num

/-- Rounding 2/3 to six decimal places gives 666667/1000000. -/
theorem fmt6_two_thirds : fmt6 (2 / 3 : ℝ) = 666667 / 1000000 := by
  unfold fmt6
  have h : round ((2 / 3 : ℝ) * 10 ^ 6) = 666667 := by
    rw [round_eq]
    apply Int.floor_eq_iff.mpr
    constructor <;> push_cast <;> norm_num
  rw [h]
  norm_num

/-- Claim C10: Axis.copy re-builds the axis from its components rounded to
six decimal places and re-normalizes, so a copy does not in general equal
the original: the normalized axis of (1, 2, 2) changes under copy, and the
joint constructed with that static axis starts with a current_axis that
differs from its static axis. -/
theorem C10_axis_copy :
    (∀ a : Axis, a.copy = Axis.init ⟨fmt6 a.x, fmt6 a.y, fmt6 a.z⟩) ∧
    demoAxis.copy ≠ demoAxis ∧
    demoJoint.current_axis ≠ demoJoint.axis := by
  have hne : demoAxis.copy ≠ demoAxis := by
    rw [demoAxis_eq]
    unfold Axis.copy
    simp only [fmt6_one_third, fmt6_two_thirds]
    have hLpos : (0 : ℝ) <
        Vector.length ⟨333333 / 1000000, 666667 / 1000000, 666667 / 1000000⟩ := by
      unfold Vector.length
      apply Real.sqrt_pos.mpr
      norm_num
    intro heq
    simp only [Axis.init, if_neg (ne_of_gt hLpos), Vector.unitized] at heq
    rw [Axis.mk.injEq] at heq
    obtain ⟨hx, hy, -⟩ := heq
    rw [div_eq_iff (ne_of_gt hLpos)] at hx hy
    linarith [hx, hy]
  refine ⟨fun a => rfl, hne, ?_⟩
  have h1 : demoJoint.current_axis = demoAxis.copy := rfl
  have h2 : demoJoint.axis = demoAxis := rfl
  rw [h1, h2]
  exact hne

/-- Claim C6: for every Mimic relation, calculate_position(x) equals
multiplier * x + offset, hence the relation is linear:
calculate_position(x) - calculate_position(y) = multiplier * (x - y); in
particular with multiplier 2.0 and offset 0.1, calculate_position(0.5)
equals 1.1. -/
theorem C6_mimic_linear (m : Mimic) (x y : ℝ) :
    m.calculate_position x = m.multiplier * x + m.offset ∧
    m.calculate_position x - m.calculate_position y = m.multiplier * (x - y) ∧
    (Mimic.mk "A" 2 0.1).calculate_position 0.5 = 1.1 := by
  refine ⟨rfl, ?_, ?_⟩
  · simp only [Mimic.calculate_position]
    ring
  · norm_num [Mimic.calculate_position]

/-- Claim C7: Limit.scale(factor) multiplies the lower and upper bounds by
the factor and leaves the effort and velocity fields unchanged. -/
theorem C7_limit_scale (l : Limit) (factor : ℝ) :
    (l.scale factor).lower = l.lower * factor ∧
    (l.scale factor).upper = l.upper * factor ∧
    (l.scale factor).effort = l.effort ∧
    (l.scale factor).velocity = l.velocity :=
  ⟨rfl, rfl, rfl, rfl⟩

/-- Claim C8: for every joint of kind Fixed and every position value,
calculate_transformation returns the identity transformation. -/
theorem C8_fixed_identity (j : Joint) (p : ℝ) (hk : j.type = JointType.fixed) :
    (j.calculate_transformation p).1 = Except.ok Transformation.identity := by
  simp [Joint.calculate_transformation, hk, Joint.calculate_fixed_transformation]

/-- Witness for C8 at a concrete fixed joint and position 5. -/
theorem C8_witness :
    (demoFixed.calculate_transformation 5).1 = Except.ok Transformation.identity :=
  C8_fixed_identity demoFixed 5 rfl

/-- Claim C3: for a Revolute or Prismatic joint, calculate_transformation
fails exactly when no limit is configured; with a limit configured it
returns a transform for every position. -/
theorem C3_missing_limit (j : Joint) (p : ℝ)
    (hk : j.type = JointType.revolute ∨ j.type = JointType.prismatic) :
    ((∃ e, (j.calculate_transformation p).1 = Except.error e) ↔ j.limit = none) ∧
    (j.limit ≠ none → ∃ t, (j.calculate_transformation p).1 = Except.ok t) := by
  rcases hk with hk | hk <;>
    cases hl : j.limit <;>
      simp [Joint.calculate_transformation, hk, hl,
        Joint.calculate_revolute_transformation, Joint.calculate_prismatic_transformation]

/-- Witness for C3 at a concrete prismatic joint without a limit. -/
theorem C3_witness :
    ((∃ e, (noLimitPrismatic.calculate_transformation 0).1 = Except.error e) ↔
      noLimitPrismatic.limit = none) ∧
    (noLimitPrismatic.limit ≠ none →
      ∃ t, (noLimitPrismatic.calculate_transformation 0).1 = Except.ok t) :=
  C3_missing_limit noLimitPrismatic 0 (Or.inr rfl)

/-- Claim C4: for a Floating or Planar joint, calculate_transformation
fails with the not-implemented error for every position, and that error is
a different kind from the missing-limit ValueError raised for Revolute and
Prismatic joints without a limit. -/
theorem C4_unimplemented (j : Joint) (p : ℝ)
    (hk : j.type = JointType.floating ∨ j.type = JointType.planar) :
    (j.calculate_transformation p).1 = Except.error Error.notImplementedError ∧
    Error.notImplementedError ≠
      Error.valueError "Revolute joints are required to define a limit" ∧
    Error.notImplementedError ≠
      Error.valueError "Prismatic joints are required to define a limit" := by
  refine ⟨?_, by simp, by simp⟩
  rcases hk with hk | hk <;>
    simp [Joint.calculate_transformation, hk,
      Joint.calculate_floating_transformation, Joint.calculate_planar_transformation]

/-- Witness for C4 at a concrete floating joint and position 7. -/
theorem C4_witness :
    (demoFloating.calculate_transformation 7).1 = Except.error Error.notImplementedError ∧
    Error.notImplementedError ≠
      Error.valueError "Revolute joints are required to define a limit" ∧
    Error.notImplementedError ≠
      Error.valueError "Prismatic joints are required to define a limit" :=
  C4_unimplemented demoFloating 7 (Or.inl rfl)

/-- Claim C1: for a Revolute or Prismatic joint with a limit configured
(a well-formed one, lower bound at most upper bound),
calculate_transformation at a position outside the limit interval produces
the same transform as calculate_transformation at the position clamped to
the nearest bound; and the concrete revolute joint with limit [-1, 1] about
the axis (0, 0, 1), asked for position 2, produces the rotation through
angle 1. -/
theorem C1_clamping (j : Joint) (l : Limit) (p : ℝ)
    (hlim : j.limit = some l) (hlu : l.lower ≤ l.upper)
    (hkind : j.type = JointType.revolute ∨ j.type = JointType.prismatic)
    (hout : p < l.lower ∨ l.upper < p) :
    (j.calculate_transformation p).1 =
      (j.calculate_transformation (if p < l.lower then l.lower else l.upper)).1 ∧
    (demoRevolute.calculate_transformation 2).1 =
      Except.ok (Transformation.rotation ⟨0, 0, 1⟩ 1 ⟨0, 0, 0⟩) := by
  have hclamp : max (min p l.upper) l.lower =
      max (min (if p < l.lower then l.lower else l.upper) l.upper) l.lower := by
    rcases hout with h | h
    · rw [if_pos h, min_eq_left (le_trans h.le hlu), min_eq_left hlu,
        max_eq_right h.le, max_self]
    · rw [if_neg (not_lt.mpr (hlu.trans h.le)), min_eq_right h.le, min_self,
        max_eq_left hlu]
  constructor
  · rcases hkind with h | h <;>
      simp only [Joint.calculate_transformation, h, hlim, ← hclamp,
        Joint.calculate_revolute_transformation, Joint.calculate_prismatic_transformation]
  · simp only [demoRevolute, Joint.calculate_transformation,
      Joint.calculate_revolute_transformation, Joint.calculate_continuous_transformation,
      Axis.vector, defaultFrame]
    norm_num [max_def, min_def]

/-- Witness for C1 at the concrete prismatic joint with limit [0, 2] and
requested position 5. -/
theorem C1_witness :
    (demoPrismatic.calculate_transformation 5).1 =
      (demoPrismatic.calculate_transformation
        (if (5 : ℝ) < (Limit.mk 0 0 0 2).lower then (Limit.mk 0 0 0 2).lower
         else (Limit.mk 0 0 0 2).upper)).1 ∧
    (demoRevolute.calculate_transformation 2).1 =
      Except.ok (Transformation.rotation ⟨0, 0, 1⟩ 1 ⟨0, 0, 0⟩) :=
  C1_clamping demoPrismatic ⟨0, 0, 0, 2⟩ 5 rfl (by norm_num) (Or.inr rfl)
    (Or.inr (by norm_num))

/-- Claim C2 counterexample: Joint.scale on a prismatic joint with no limit
configured does not rescale and leave the other fields unchanged; it fails
(Python raises AttributeError on None.scale), refuting the claim for this
joint. -/
theorem C2_counterexample :
    noLimitPrismatic.scale 2 =
      Except.error (Error.attributeError "NoneType object has no attribute scale") := by
  rfl

/-- Claim C2 (amended): for every joint whose limit is configured whenever
the joint is scalable, scale(factor) rescales the current_origin
translation by the factor unconditionally, rescales the limit bounds
exactly when is_scalable() is true (Planar and Prismatic kinds), and leaves
every other joint field unchanged.  (A scalable joint with no limit makes
scale fail instead; see the counterexample.) -/
theorem C2_scale (j : Joint) (factor : ℝ)
    (hs : j.is_scalable = true → j.limit.isSome = true) :
    j.scale factor = Except.ok { j with
      current_origin := j.current_origin.scale factor,
      limit := if j.is_scalable then j.limit.map (fun l => l.scale factor)
               else j.limit } := by
  unfold Joint.scale
  cases h : j.is_scalable with
  | false =>
      have h' : ({ j with current_origin := j.current_origin.scale factor } : Joint).is_scalable
          = false := h
      simp only [h', h, Bool.false_eq_true, if_false]
  | true =>
      obtain ⟨l, hl⟩ := Option.isSome_iff_exists.mp (hs h)
      have h' :
          ({ j with current_origin := j.current_origin.scale factor, limit := some l } : Joint).is_scalable = true :=
        h
      simp only [hl, h', h, if_true, Option.map_some']

/-- Witness for C2 at the concrete prismatic joint with limit [0, 2] and
factor 2. -/
theorem C2_witness :
    demoPrismatic.scale 2 = Except.ok { demoPrismatic with
      current_origin := demoPrismatic.current_origin.scale 2,
      limit := if demoPrismatic.is_scalable then
                 demoPrismatic.limit.map (fun l => l.scale 2)
               else demoPrismatic.limit } :=
  C2_scale demoPrismatic 2 (fun _ => rfl)

/-- Claim C9: calculate_transformation leaves the joint's position, current
origin and axis, static origin and axis, limit and mimic unchanged, and its
result is a pure function of the joint's fields and the argument: two
joints agreeing on the fields the computation reads (type, limit, current
axis, current origin) get the same result. -/
theorem C9_pure (j k : Joint) (p : ℝ)
    (ht : j.type = k.type) (hl : j.limit = k.limit)
    (ho : j.current_origin = k.current_origin) (ha : j.current_axis = k.current_axis) :
    ((j.calculate_transformation p).2.position = j.position ∧
     (j.calculate_transformation p).2.current_origin = j.current_origin ∧
     (j.calculate_transformation p).2.current_axis = j.current_axis ∧
     (j.calculate_transformation p).2.origin = j.origin ∧
     (j.calculate_transformation p).2.axis = j.axis ∧
     (j.calculate_transformation p).2.limit = j.limit ∧
     (j.calculate_transformation p).2.mimic = j.mimic) ∧
    (j.calculate_transformation p).1 = (k.calculate_transformation p).1 := by
  constructor
  · unfold Joint.calculate_transformation
    cases j.memoized <;> simp
  · simp only [Joint.calculate_transformation,
      Joint.calculate_revolute_transformation, Joint.calculate_prismatic_transformation,
      Joint.calculate_continuous_transformation, Joint.calculate_fixed_transformation,
      Joint.calculate_floating_transformation, Joint.calculate_planar_transformation,
      ht, hl, ho, ha]

/-- Witness for C9: the revolute demo joint and its memoized twin at
position 3. -/
theorem C9_witness :
    ((demoRevolute.calculate_transformation 3).2.position = demoRevolute.position ∧
     (demoRevolute.calculate_transformation 3).2.current_origin = demoRevolute.current_origin ∧
     (demoRevolute.calculate_transformation 3).2.current_axis = demoRevolute.current_axis ∧
     (demoRevolute.calculate_transformation 3).2.origin = demoRevolute.origin ∧
     (demoRevolute.calculate_transformation 3).2.axis = demoRevolute.axis ∧
     (demoRevolute.calculate_transformation 3).2.limit = demoRevolute.limit ∧
     (demoRevolute.calculate_transformation 3).2.mimic = demoRevolute.mimic) ∧
    (demoRevolute.calculate_transformation 3).1 =
      (demoRevoluteMemo.calculate_transformation 3).1 :=
  C9_pure demoRevolute demoRevoluteMemo 3 rfl rfl rfl rfl

end Compas

end
